import Mathlib

/-
Verification of the NYC property lookup backend (nyc-back): a shallow
embedding in Lean 4 of the spatial service, the API lookup endpoint, the
batch relationship builder, the data importers, geocoding address
normalization and the unit conversion helpers, together with theorems
checking the documented behaviour of each component.

Conventions:
* Python floats are modelled as exact rationals (ℚ); where a statement is
  specifically about IEEE double-precision behaviour we additionally model
  binary64 round-to-nearest-even rounding explicitly (`round53`).
* The PostGIS-backed session (`db`) is modelled as a `Store`: lists of the
  persisted entities plus oracle functions for the geometric predicates
  (`ST_Distance`, `ST_Intersects`, `ST_Contains`) over opaque geometry
  handles (`Nat`).
* Python `Optional` values are `Option`; Python string truthiness is
  modelled explicitly.
-/

set_option maxRecDepth 100000

namespace NycBack

/-! ## Unit conversion helpers (app/utils/postgis.py)

`feet_to_meters` / `meters_to_feet` perform a single multiplication /
division by the constant 0.3048 and nothing else.  Here they are embedded
over exact rationals. -/

/-- Embedding of `feet_to_meters` (postgis.py): `feet * 0.3048`. -/
def feet_to_meters (feet : ℚ) : ℚ := feet * (3048 / 10000)

/-- Embedding of `meters_to_feet` (postgis.py): `meters / 0.3048`. -/
def meters_to_feet (meters : ℚ) : ℚ := meters / (3048 / 10000)

/-! ## IEEE binary64 model

The Python source evaluates the conversions in IEEE double precision.  We
model the normal-range (no overflow, no subnormal) binary64 rounding:
round to nearest, ties to even, 53-bit significand. -/

/-- `2 ^ e` over ℚ for an integer exponent `e`. -/
def rexp2 (e : Int) : ℚ :=
  if 0 ≤ e then ((2 : ℚ) ^ e.toNat) else ((2 : ℚ) ^ (-e).toNat)⁻¹

/-- Floor of a rational as an integer (floor division of numerator by
denominator). -/
def ratFloor (q : ℚ) : Int := Int.fdiv q.num (q.den : Int)

/-- Fuel-bounded helper for the bit length of a natural number. -/
def bitlenGo : Nat → Nat → Nat
  | 0, _ => 0
  | fuel + 1, n => if n = 0 then 0 else bitlenGo fuel (n / 2) + 1

/-- Bit length of a natural number (0 for 0); the fuel of 300 covers every
number below `2 ^ 300`, far beyond the binary64 range used here. -/
def bitlen (n : Nat) : Nat := bitlenGo 300 n

/-- Round a (normal-range) rational to the nearest IEEE binary64 value,
round to nearest, ties to even, 53-bit significand.  The binade is located
from the bit lengths of numerator and denominator, corrected by one
comparison. -/
def round53 (q : ℚ) : ℚ :=
  if q = 0 then 0
  else
    let aq : ℚ := |q|
    let la : Int := (bitlen aq.num.natAbs : Int) - 1
    let ld : Int := (bitlen aq.den : Int) - 1
    let a : Int := la - ld
    let e : Int := if aq < rexp2 a then a - 1 else a
    let scale : ℚ := rexp2 (e - 52)
    let m : ℚ := aq / scale
    let fl : Int := ratFloor m
    let frac : ℚ := m - (fl : ℚ)
    let mr : Int :=
      if frac < 1 / 2 then fl
      else if 1 / 2 < frac then fl + 1
      else if fl % 2 = 0 then fl else fl + 1
    (if q < 0 then -1 else 1) * (mr : ℚ) * scale

/-- The binary64 value of the literal `0.3048`. -/
def float_0_3048 : ℚ := round53 (3048 / 10000)

/-- IEEE-evaluated `feet_to_meters`: the multiplication result is rounded
to binary64. -/
def feet_to_meters_fp (feet : ℚ) : ℚ := round53 (feet * float_0_3048)

/-- IEEE-evaluated `meters_to_feet`: the division result is rounded to
binary64. -/
def meters_to_feet_fp (meters : ℚ) : ℚ := round53 (meters / float_0_3048)

/-- A concrete finite binary64 value (255.14351883684773…) on which the
IEEE round trip fails. -/
def x_cx : ℚ := 8977064502809567 / 35184372088832

/-! ## Data model (app/models) and the spatial store

Persisted entities keep the fields the verified operations read.  Geometry
values are opaque handles (`Nat`); the PostGIS predicates `ST_Distance`,
`ST_Intersects` and `ST_Contains` are oracle functions carried by the
store, mirroring the external spatial engine. -/

/-- A landmark row (app/models/landmark.py): name and geometry handle. -/
structure Landmark where
  id : Nat
  name : String
  geometry : Nat
deriving DecidableEq, Repr

/-- A zoning district row (app/models/zoning.py): unique zoning code and
geometry handle. -/
structure ZoningDistrict where
  id : Nat
  zoning_code : String
  geometry : Nat
deriving DecidableEq, Repr

/-- A property row (app/models/property.py): BBL, address and geometry
handle. -/
structure Property where
  id : Nat
  bbl : String
  address : String
  geometry : Nat
deriving DecidableEq, Repr

/-- A PropertyZoning junction row (app/models/zoning.py). -/
structure PropertyZoning where
  property_id : Nat
  zoning_district_id : Nat
  is_primary : Bool
deriving DecidableEq, Repr

/-- The database session together with the PostGIS oracles.
`ST_Distance` returns geodesic meters between two geometry handles (on
geography casts both argument orders agree; theorems that need this state
it as a symmetry hypothesis). -/
structure Store where
  properties : List Property
  landmarks : List Landmark
  zoning_districts : List ZoningDistrict
  property_zoning : List PropertyZoning
  ST_Distance : Nat → Nat → ℚ
  ST_Intersects : Nat → Nat → Bool
  ST_Contains : Nat → ℚ × ℚ → Bool

/-! ## SpatialService (app/services/spatial.py) -/

/-- Embedding of `SpatialService.find_property_by_bbl`: first property row
whose `bbl` equals the query. -/
def find_property_by_bbl (s : Store) (bbl : String) : Option Property :=
  s.properties.find? (fun p => p.bbl == bbl)

/-- `leadsWith needle hay` is true iff `needle` is an initial segment of
`hay`. -/
def leadsWith : List Char → List Char → Bool
  | [], _ => true
  | _ :: _, [] => false
  | a :: as, b :: bs => a == b && leadsWith as bs

/-- `hasSub needle hay` is true iff `needle` occurs contiguously in
`hay`. -/
def hasSub (needle : List Char) : List Char → Bool
  | [] => needle.isEmpty
  | c :: t => leadsWith needle (c :: t) || hasSub needle t

/-- Lower-case a character list. -/
def lowerL (cs : List Char) : List Char := cs.map Char.toLower

/-- Embedding of `SpatialService.find_property_by_address`: first property
whose address contains the query case-insensitively (`ilike %address%`). -/
def find_property_by_address (s : Store) (address : String) : Option Property :=
  s.properties.find? (fun p => hasSub (lowerL address.data) (lowerL p.address.data))

/-- Embedding of `SpatialService.find_property_by_coordinates`: first
property whose geometry contains the point (`ST_Contains`). -/
def find_property_by_coordinates (s : Store) (latitude longitude : ℚ) : Option Property :=
  s.properties.find? (fun p => s.ST_Contains p.geometry (latitude, longitude))

/-- Embedding of `SpatialService.find_nearby_landmarks`: landmarks passing
the `ST_DWithin(landmark, geom, distance_feet * 0.3048)` filter, each
paired with `ST_Distance(geom, landmark) / 0.3048` feet.  The store
returns rows in table order: the code applies no ordering. -/
def find_nearby_landmarks (s : Store) (geometry : Nat) (distance_feet : ℚ) :
    List (Landmark × ℚ) :=
  (s.landmarks.filter
      (fun l => decide (s.ST_Distance l.geometry geometry ≤ distance_feet * (3048 / 10000)))).map
    (fun l => (l, s.ST_Distance geometry l.geometry / (3048 / 10000)))

/-- Embedding of `SpatialService.get_zoning_districts`: all districts
intersecting the geometry, each paired with `is_primary = False` (the code
sets `is_primary = False` for every district in this live path). -/
def get_zoning_districts (s : Store) (geometry : Nat) : List (ZoningDistrict × Bool) :=
  (s.zoning_districts.filter (fun d => s.ST_Intersects d.geometry geometry)).map
    (fun d => (d, false))

/-- ORM resolution of a `PropertyZoning.zoning_district` reference (the
foreign key always resolves in the source; the default is never hit on
well-formed stores). -/
def lookupDistrict (s : Store) (i : Nat) : ZoningDistrict :=
  (s.zoning_districts.find? (fun d => d.id == i)).getD ⟨0, "", 0⟩

/-- Embedding of `SpatialService.get_property_zoning_districts`: one
`(district, is_primary)` pair per persisted `PropertyZoning` row of the
property. -/
def get_property_zoning_districts (s : Store) (p : Property) : List (ZoningDistrict × Bool) :=
  (s.property_zoning.filter (fun r => r.property_id == p.id)).map
    (fun r => (lookupDistrict s r.zoning_district_id, r.is_primary))

/-- The persisted `PropertyZoning` rows of a given property id. -/
def pzFor (s : Store) (pid : Nat) : List PropertyZoning :=
  s.property_zoning.filter (fun r => r.property_id == pid)

/-- Loop body of `SpatialService.create_property_zoning_relationships`:
for each intersecting district (with its enumeration index), add a row
unless a row for the same (property, district) pair already exists; the
row created at index 0 is flagged primary. -/
def cpzrGo : Nat → List PropertyZoning → Nat → List Nat → List PropertyZoning
  | _, rows, _, [] => rows
  | pid, rows, i, d :: ds =>
      cpzrGo pid
        (if rows.any (fun r => r.property_id == pid && r.zoning_district_id == d) then rows
         else rows ++ [⟨pid, d, i == 0⟩])
        (i + 1) ds

/-- Embedding of `SpatialService.create_property_zoning_relationships`:
query the districts intersecting the property's geometry; if none, return
unchanged; otherwise run the creation loop over them in store order. -/
def create_property_zoning_relationships (s : Store) (p : Property) : Store :=
  let districts :=
    (s.zoning_districts.filter (fun d => s.ST_Intersects d.geometry p.geometry)).map
      (fun d => d.id)
  if districts.isEmpty then s
  else { s with property_zoning := cpzrGo p.id s.property_zoning 0 districts }

/-- The district ids intersecting a property's geometry, in store order
(the query of `create_property_zoning_relationships`). -/
def intersectingIds (s : Store) (p : Property) : List Nat :=
  (s.zoning_districts.filter (fun d => s.ST_Intersects d.geometry p.geometry)).map
    (fun d => d.id)

/-- Per-property step of the Relationship Builder script
(app/data/scripts/create_property_zoning_relationships.py): skip the
property (returning `true`) when it already has at least one persisted
zoning association, otherwise create its relationships. -/
def builder_process_property (s : Store) (p : Property) : Store × Bool :=
  if 0 < (get_property_zoning_districts s p).length then (s, true)
  else (create_property_zoning_relationships s p, false)

/-- Monotonically non-decreasing check on a list of rationals. -/
def sortedLE : List ℚ → Bool
  | [] => true
  | [_] => true
  | a :: b :: t => decide (a ≤ b) && sortedLE (b :: t)

/-! ## GeocodingService.normalize_address (app/services/geocoding.py)

`" ".join(address.split())` followed by the conditional `", New York, NY"`
suffix.  Python's argumentless `str.split` splits on runs of the six ASCII
whitespace characters and drops empty pieces. -/

/-- The whitespace characters recognised by Python's `str.split()`. -/
def pyIsSpace (c : Char) : Bool :=
  c == ' ' || c == '\t' || c == '\n' || c == '\r' || c == '\x0b' || c == '\x0c'

/-- Worker for Python `str.split()`: `cur` holds the current word
reversed. -/
def pySplitGo : List Char → List Char → List (List Char)
  | cur, [] => if cur.isEmpty then [] else [cur.reverse]
  | cur, c :: t =>
      if pyIsSpace c then
        if cur.isEmpty then pySplitGo [] t else cur.reverse :: pySplitGo [] t
      else pySplitGo (c :: cur) t

/-- Python `address.split()` on a character list. -/
def pySplit (cs : List Char) : List (List Char) := pySplitGo [] cs

/-- Python `" ".join(words)` on character lists. -/
def joinSp : List (List Char) → List Char
  | [] => []
  | [w] => w
  | w :: ws => w ++ ' ' :: joinSp ws

/-- The whitespace-collapsing step `" ".join(address.split())`. -/
def collapseL (cs : List Char) : List Char := joinSp (pySplit cs)

/-- The membership test of `normalize_address`: does the lower-cased
address contain `"new york"` or `"ny"` as a substring? -/
def mentionsNYL (cs : List Char) : Bool :=
  hasSub ("new york".data) (lowerL cs) || hasSub ("ny".data) (lowerL cs)

/-- Embedding of `GeocodingService.normalize_address` on character
lists: collapse whitespace, then append `", New York, NY"` when neither
`"new york"` nor `"ny"` occurs in the lower-cased collapsed address. -/
def normalize_addressL (cs : List Char) : List Char :=
  let address := collapseL cs
  if !(mentionsNYL address) then address ++ (", New York, NY".data) else address

/-- Embedding of `GeocodingService.normalize_address` on strings. -/
def normalize_address (s : String) : String := ⟨normalize_addressL s.data⟩

/-- String wrapper for the collapse step. -/
def collapseS (s : String) : String := ⟨collapseL s.data⟩

/-- String wrapper for the `"new york"` / `"ny"` mention test. -/
def mentionsNY (s : String) : Bool := mentionsNYL s.data

/-- `noDoubleWhite cs` is true iff `cs` has no two adjacent whitespace
characters. -/
def noDoubleWhite : List Char → Bool
  | [] => true
  | [_] => true
  | a :: b :: t => !(pyIsSpace a && pyIsSpace b) && noDoubleWhite (b :: t)

/-- String wrapper for `noDoubleWhite`. -/
def noDoubleWhiteS (s : String) : Bool := noDoubleWhite s.data

/-! ## Lookup endpoint (app/api/v1/endpoints/properties.py) -/

/-- Python truthiness of an `Optional[str]` query parameter: `None` and
`""` are falsy. -/
def pyTruthy : Option String → Bool
  | none => false
  | some s => !(s == "")

/-- Round-half-to-even of a rational to an integer. -/
def roundHalfEven (q : ℚ) : Int :=
  let fl := ratFloor q
  let frac := q - (fl : ℚ)
  if frac < 1 / 2 then fl
  else if 1 / 2 < frac then fl + 1
  else if fl % 2 = 0 then fl else fl + 1

/-- Python `round(x, 2)` modelled over exact rationals. -/
def pyRound2 (q : ℚ) : ℚ := (roundHalfEven (q * 100) : ℚ) / 100

/-- Response item for one zoning district of a property. -/
structure ZoningDistrictInfo where
  code : String
  is_primary : Bool
deriving DecidableEq, Repr

/-- Response item for one nearby landmark of a property. -/
structure NearbyLandmarkInfo where
  name : String
  distance_feet : ℚ
deriving DecidableEq, Repr

/-- The property payload of a successful lookup (identity fields plus the
enrichment lists; display-only numeric attributes are not modelled). -/
structure PropertyResponse where
  id : Nat
  bbl : String
  address : String
  zoning_districts : List ZoningDistrictInfo
  nearby_landmarks : List NearbyLandmarkInfo
deriving DecidableEq, Repr

/-- The envelope returned by `GET /lookup`: an optional property and an
optional error indicator. -/
structure PropertyLookupResponse where
  property : Option PropertyResponse := none
  error : Option String := none
deriving DecidableEq, Repr

/-- A FastAPI `HTTPException` with status code and detail. -/
structure HTTPExceptionModel where
  status_code : Nat
  detail : String
deriving DecidableEq, Repr

/-- Zoning enrichment of `lookup_property`: persisted rows first, live
intersection fallback when none exist. -/
def endpoint_zoning (s : Store) (p : Property) : List (ZoningDistrict × Bool) :=
  let zoning_districts := get_property_zoning_districts s p
  if zoning_districts.isEmpty then get_zoning_districts s p.geometry else zoning_districts

/-- Resolution phase of `lookup_property`: BBL first, then address (direct
match, then geocode and search by coordinates), then coordinates.  A
geocoder failure is a `GeocodingError` (`Except.error`). -/
def lookup_resolve (s : Store) (geocode : String → Except String (ℚ × ℚ))
    (address bbl : Option String) (lat lon : Option ℚ) : Except String (Option Property) :=
  if pyTruthy bbl then .ok (find_property_by_bbl s (bbl.getD ""))
  else if pyTruthy address then
    let a := address.getD ""
    match find_property_by_address s a with
    | some p => .ok (some p)
    | none =>
        match geocode (normalize_address a) with
        | .ok (la, lo) => .ok (find_property_by_coordinates s la lo)
        | .error e => .error e
  else
    match lat, lon with
    | some la, some lo => .ok (find_property_by_coordinates s la lo)
    | _, _ => .ok none

/-- Embedding of the `GET /lookup` endpoint `lookup_property`: parameter
validation, resolution, then enrichment; a missing property yields a
normal response with the `"Property not found"` indicator, a geocoder
failure a 400 `HTTPException`. -/
def lookup_property (s : Store) (geocode : String → Except String (ℚ × ℚ))
    (address bbl : Option String) (lat lon : Option ℚ) :
    Except HTTPExceptionModel PropertyLookupResponse :=
  if !(pyTruthy address || pyTruthy bbl || (lat.isSome && lon.isSome)) then
    .error ⟨400, "At least one of address, bbl, or lat/lon must be provided"⟩
  else
    match lookup_resolve s geocode address bbl lat lon with
    | .error e => .error ⟨400, "Geocoding error: " ++ e⟩
    | .ok none => .ok { property := none, error := some "Property not found" }
    | .ok (some p) =>
        let zoning_districts := endpoint_zoning s p
        let nearby_landmarks := find_nearby_landmarks s p.geometry 150
        .ok { property := some
                { id := p.id
                  bbl := p.bbl
                  address := p.address
                  zoning_districts :=
                    zoning_districts.map (fun x => ⟨x.1.zoning_code, x.2⟩)
                  nearby_landmarks :=
                    nearby_landmarks.map (fun x => ⟨x.1.name, pyRound2 x.2⟩) }
              error := none }

/-! ## Data importers (app/data/importers)

The three importer `import_file` methods share one algorithm shape,
parameterized by the natural-key extraction (`_extract_bbl`,
`_extract_zoning_code`, `_extract_name`): for each record, a falsy key
means skip; an existing key means skip (or update when `update_existing`);
otherwise insert.  The session query sees rows added earlier in the same
run (autoflush), so the database is modelled as the growing list of
natural keys. -/

/-- The statistics dictionary returned by every importer. -/
structure ImportStats where
  total : Nat
  inserted : Nat
  updated : Nat
  skipped : Nat
  errors : Nat
deriving DecidableEq, Repr

/-- Record loop shared by the three importers; `db` is the list of
persisted natural keys. -/
def importGo {ρ : Type} (extractKey : ρ → Option String) (update_existing : Bool) :
    List String → ImportStats → List ρ → List String × ImportStats
  | db, stats, [] => (db, stats)
  | db, stats, r :: rs =>
      match extractKey r with
      | none => importGo extractKey update_existing db
          { stats with skipped := stats.skipped + 1 } rs
      | some k =>
          if k == "" then
            importGo extractKey update_existing db
              { stats with skipped := stats.skipped + 1 } rs
          else if db.contains k then
            if update_existing then
              importGo extractKey update_existing db
                { stats with updated := stats.updated + 1 } rs
            else
              importGo extractKey update_existing db
                { stats with skipped := stats.skipped + 1 } rs
          else
            importGo extractKey update_existing (db ++ [k])
              { stats with inserted := stats.inserted + 1 } rs

/-- Embedding of `import_file` (mappluto.py / zoning.py / landmarks.py):
dry runs return the zeroed statistics without touching the store;
otherwise the record loop runs over the file's records in order. -/
def import_file {ρ : Type} (extractKey : ρ → Option String) (db : List String)
    (records : List ρ) (update_existing : Bool) (dry_run : Bool) :
    List String × ImportStats :=
  let stats0 : ImportStats := ⟨records.length, 0, 0, 0, 0⟩
  if dry_run then (db, stats0)
  else importGo extractKey update_existing db stats0 records

/-! ## MapPLUTO field extraction (app/data/importers/mappluto.py) -/

/-- Python `str.zfill` on a character list: left-pad with `'0'` to the
requested width, keeping a leading sign in front; a string already at
least as long is returned unchanged. -/
def zfillL (cs : List Char) (width : Nat) : List Char :=
  if width ≤ cs.length then cs
  else
    match cs with
    | '-' :: rest => '-' :: (List.replicate (width - cs.length) '0' ++ rest)
    | '+' :: rest => '+' :: (List.replicate (width - cs.length) '0' ++ rest)
    | _ => List.replicate (width - cs.length) '0' ++ cs

/-- Python `str.zfill` on strings. -/
def zfill (s : String) (width : Nat) : String := ⟨zfillL s.data width⟩

/-- Python `f"{n:0{width}d}"`: zero-pad the decimal representation to the
width, the sign counting toward the width. -/
def pyFormatInt (width : Nat) (n : Int) : String :=
  if n < 0 then ⟨'-' :: zfillL (toString n.natAbs).data (width - 1)⟩
  else zfill (toString n.natAbs) width

/-- A MapPLUTO record, holding the fields `_extract_bbl`,
`_get_borough_code` and `_extract_property_data` read.  `none` means the
field is absent; string fields hold the value of Python `str(...)`. -/
structure PRow where
  BBL : Option String := none
  bbl : Option String := none
  Block : Option Int := none
  block : Option Int := none
  Lot : Option Int := none
  lot : Option Int := none
  Borough : Option String := none
  borough : Option String := none
  BOROCODE : Option String := none
  Address : Option String := none
  address : Option String := none
  HouseNum : Option String := none
  house_num : Option String := none
  Street : Option String := none
  street : Option String := none
deriving DecidableEq, Repr

/-- The borough lookup dictionary of `_get_borough_code`. -/
def borough_map : List (String × String) :=
  [("1", "1"), ("MANHATTAN", "1"), ("MN", "1"),
   ("2", "2"), ("BRONX", "2"), ("BX", "2"),
   ("3", "3"), ("BROOKLYN", "3"), ("BK", "3"), ("KINGS", "3"),
   ("4", "4"), ("QUEENS", "4"), ("QN", "4"),
   ("5", "5"), ("STATEN ISLAND", "5"), ("SI", "5"), ("RICHMOND", "5")]

/-- Upper-case a string (Python `str.upper` on ASCII). -/
def upperS (s : String) : String := ⟨s.data.map Char.toUpper⟩

/-- Embedding of `MapPLUTOImporter._get_borough_code`: read
`Borough`/`borough`/`BOROCODE` in that order and look the upper-cased
value up in the borough dictionary. -/
def _get_borough_code (row : PRow) : Option String :=
  match row.Borough.or (row.borough.or row.BOROCODE) with
  | none => none
  | some b => borough_map.lookup (upperS b)

/-- Embedding of `MapPLUTOImporter._extract_bbl`: take the `BBL`/`bbl`
field when present, otherwise build borough digit + 5-digit block +
4-digit lot; either way the result passes through `zfill(10)`. -/
def _extract_bbl (row : PRow) : Option String :=
  match row.BBL with
  | some v => some (zfill v 10)
  | none =>
      match row.bbl with
      | some v => some (zfill v 10)
      | none =>
          match _get_borough_code row, row.Block.or row.block, row.Lot.or row.lot with
          | some bc, some blk, some lt =>
              some (zfill (bc ++ pyFormatInt 5 blk ++ pyFormatInt 4 lt) 10)
          | _, _, _ => none

/-- The borough enumeration (app/models/property.py). -/
inductive Borough where
  | MANHATTAN
  | BRONX
  | BROOKLYN
  | QUEENS
  | STATEN_ISLAND
deriving DecidableEq, Repr

/-- The address part of `_extract_property_data`: `Address`/`address`
field, else `"{HouseNum} {Street}"` when both components are truthy. -/
def extractAddress (row : PRow) : Option String :=
  let address := row.Address.or row.address
  if pyTruthy address then address
  else
    let house_num := (row.HouseNum.or row.house_num).getD ""
    let street := (row.Street.or row.street).getD ""
    if !(house_num == "") && !(street == "") then some (house_num ++ " " ++ street)
    else address

/-- The identity fields of the dictionary built by
`_extract_property_data` (display-only numeric attributes and the raw
zoning-code list are not modelled). -/
structure PropertyData where
  bbl : Option String
  address : Option String
  borough : Borough
  block : Int
  lot : Int
deriving DecidableEq, Repr

/-- Embedding of `MapPLUTOImporter._extract_property_data` on the modelled
fields: the borough code is mapped through `{"1": MANHATTAN, ...}` with
`Borough.MANHATTAN` as the `dict.get` default, so an absent or
unrecognized borough yields Manhattan. -/
def _extract_property_data (row : PRow) : PropertyData :=
  { bbl := _extract_bbl row
    address := extractAddress row
    borough :=
      match _get_borough_code row with
      | some "1" => Borough.MANHATTAN
      | some "2" => Borough.BRONX
      | some "3" => Borough.BROOKLYN
      | some "4" => Borough.QUEENS
      | some "5" => Borough.STATEN_ISLAND
      | _ => Borough.MANHATTAN
    block := (row.Block.or row.block).getD 0
    lot := (row.Lot.or row.lot).getD 0 }

/-! ## Concrete test fixtures -/

/-- Store with two landmarks whose distances from geometry 0 are 40 m and
3 m, in that table order (store return order is not distance order). -/
def cxStoreC1 : Store :=
  { properties := []
    landmarks := [⟨1, "L1", 1⟩, ⟨2, "L2", 2⟩]
    zoning_districts := []
    property_zoning := []
    ST_Distance := fun a b =>
      if a == 1 || b == 1 then 40 else if a == 2 || b == 2 then 3 else 0
    ST_Intersects := fun _ _ => true
    ST_Contains := fun _ _ => false }

/-- Store with one landmark at a constant 3 m from every geometry. -/
def wstoreC1 : Store :=
  { properties := []
    landmarks := [⟨1, "L", 7⟩]
    zoning_districts := []
    property_zoning := []
    ST_Distance := fun _ _ => 3
    ST_Intersects := fun _ _ => true
    ST_Contains := fun _ _ => false }

/-- Store where property 5 already has one persisted zoning association. -/
def wstoreC3 : Store :=
  { properties := [⟨5, "1000120001", "350 5th Ave", 3⟩]
    landmarks := []
    zoning_districts := [⟨1, "R7-2", 9⟩]
    property_zoning := [⟨5, 1, true⟩]
    ST_Distance := fun _ _ => 0
    ST_Intersects := fun _ _ => true
    ST_Contains := fun _ _ => false }

/-- The property of `wstoreC3`. -/
def wpropC3 : Property := ⟨5, "1000120001", "350 5th Ave", 3⟩

/-- Store with two zoning districts intersecting everything and no
persisted associations. -/
def wstoreC4 : Store :=
  { properties := [⟨5, "1000120001", "350 5th Ave", 3⟩]
    landmarks := []
    zoning_districts := [⟨1, "R7-2", 9⟩, ⟨2, "C6-2", 11⟩]
    property_zoning := []
    ST_Distance := fun _ _ => 0
    ST_Intersects := fun _ _ => true
    ST_Contains := fun _ _ => false }

/-- The property of `wstoreC4`. -/
def wpropC4 : Property := ⟨5, "1000120001", "350 5th Ave", 3⟩

/-- Store holding a single property with BBL `"1000120001"`. -/
def wstoreC7 : Store :=
  { properties := [⟨1, "1000120001", "350 5th Ave", 0⟩]
    landmarks := []
    zoning_districts := []
    property_zoning := []
    ST_Distance := fun _ _ => 0
    ST_Intersects := fun _ _ => false
    ST_Contains := fun _ _ => false }

/-- A MapPLUTO record with a direct BBL field and an unrecognized borough
value. -/
def wrowC10 : PRow := { BBL := some "1000120001", Borough := some "XX" }

/-- The rows the creation loop of
`create_property_zoning_relationships` builds when starting from index `i`
with no pre-existing rows for the property: one row per district in
order, flagged primary exactly at index 0. -/
def mkRows (pid : Nat) : Nat → List Nat → List PropertyZoning
  | _, [] => []
  | i, d :: ds => ⟨pid, d, i == 0⟩ :: mkRows pid (i + 1) ds

/-- Store with two zoning districts intersecting everything, no persisted
associations. -/
def wstoreC2 : Store :=
  { properties := [⟨5, "1000120001", "350 5th Ave", 3⟩]
    landmarks := []
    zoning_districts := [⟨1, "R7-2", 10⟩, ⟨2, "C6-2", 11⟩]
    property_zoning := []
    ST_Distance := fun _ _ => 0
    ST_Intersects := fun _ _ => true
    ST_Contains := fun _ _ => false }

/-- The property of `wstoreC2`. -/
def wpropC2 : Property := ⟨5, "1000120001", "350 5th Ave", 3⟩

/-- A MapPLUTO record whose direct BBL field holds eleven characters. -/
def cxRowC8 : PRow := { BBL := some "12345678901" }

/-- A MapPLUTO record whose lowercase bbl field holds three characters. -/
def wrowC8 : PRow := { bbl := some "123" }

/-! ## Theorems -/

unseal Rat.mul Rat.inv Rat.add Rat.sub in
/-- C5 counterexample: `x_cx` is a representable binary64 value
(`round53` fixes it), yet evaluating `meters_to_feet(feet_to_meters(x))`
in IEEE double precision does not return `x` — the claimed exact
round-trip identity fails for this finite floating-point input. -/
theorem fp_roundtrip_counterexample :
    round53 x_cx = x_cx ∧ meters_to_feet_fp (feet_to_meters_fp x_cx) ≠ x_cx := by
  constructor <;> decide

/-- C5 (amended): the conversion functions perform a single
multiplication/division by the constant 0.3048 with no rounding of their
own, so in exact arithmetic `meters_to_feet (feet_to_meters x) = x` for
every value `x`. -/
theorem conversion_roundtrip_exact (x : ℚ) : meters_to_feet (feet_to_meters x) = x := by
  rw [feet_to_meters, meters_to_feet, mul_div_assoc, div_self (by norm_num), mul_one]

unseal Rat.mul Rat.inv Rat.add Rat.sub in
/-- C1 counterexample: on a store returning the 40 m-distance landmark
before the 3 m one, `find_nearby_landmarks` (threshold 150 feet) returns
distances in store order, which is not monotonically non-decreasing — the
claimed sortedness fails. -/
theorem find_nearby_landmarks_not_sorted_cx :
    sortedLE ((find_nearby_landmarks cxStoreC1 0 150).map Prod.snd) = false := by
  decide

/-- C1 (amended): for every store whose distance oracle is symmetric (as
geodesic distance is), every landmark returned by `find_nearby_landmarks`
has reported distance at most the requested threshold; the list is in
store return order, not sorted by distance. -/
theorem find_nearby_landmarks_within_threshold (s : Store) (g : Nat) (f : ℚ)
    (hsym : ∀ a b, s.ST_Distance a b = s.ST_Distance b a) :
    ∀ lm d, (lm, d) ∈ find_nearby_landmarks s g f → d ≤ f := by
  intro lm d hmem
  simp only [find_nearby_landmarks, List.mem_map, List.mem_filter] at hmem
  obtain ⟨l, ⟨_, hcond⟩, heq⟩ := hmem
  have hle : s.ST_Distance l.geometry g ≤ f * (3048 / 10000) := of_decide_eq_true hcond
  have hd : d = s.ST_Distance g l.geometry / (3048 / 10000) := by
    have := congrArg Prod.snd heq
    simpa using this.symm
  rw [hd, hsym g l.geometry]
  rw [div_le_iff₀ (by norm_num : (0 : ℚ) < 3048 / 10000)]
  exact hle

unseal Rat.mul Rat.inv Rat.add Rat.sub in
/-- C1 witness: the theorem applied to `wstoreC1` (symmetric constant
distance 3 m) at threshold 150 ft. -/
theorem find_nearby_landmarks_within_threshold_witness :
    (3 : ℚ) / (3048 / 10000) ≤ 150 :=
  find_nearby_landmarks_within_threshold wstoreC1 7 150 (fun a b => rfl)
    ⟨1, "L", 7⟩ (3 / (3048 / 10000)) (by decide)

/-- C3: running the Relationship Builder step on a property that already
has at least one persisted zoning association is a no-op: the property is
counted as skipped, the store is unchanged, and in particular its
association count is unchanged. -/
theorem builder_skip_is_noop (s : Store) (p : Property)
    (h : 0 < (get_property_zoning_districts s p).length) :
    builder_process_property s p = (s, true) ∧
      get_property_zoning_districts (builder_process_property s p).1 p =
        get_property_zoning_districts s p := by
  have h1 : builder_process_property s p = (s, true) := by
    unfold builder_process_property
    rw [if_pos h]
  exact ⟨h1, by rw [h1]⟩

/-- C3 witness: the theorem applied to `wstoreC3`, whose property 5
already has one association. -/
theorem builder_skip_is_noop_witness :
    builder_process_property wstoreC3 wpropC3 = (wstoreC3, true) :=
  (builder_skip_is_noop wstoreC3 wpropC3 (by decide)).1

/-- C4: when a resolved property has no persisted PropertyZoning rows, the
enrichment falls back to the live intersection query over all zoning
districts, and every association produced by this fallback has
`is_primary = false`. -/
theorem fallback_zoning_never_primary (s : Store) (p : Property)
    (h : get_property_zoning_districts s p = []) :
    endpoint_zoning s p = get_zoning_districts s p.geometry ∧
      ∀ x ∈ endpoint_zoning s p, x.2 = false := by
  have h1 : endpoint_zoning s p = get_zoning_districts s p.geometry := by
    unfold endpoint_zoning
    rw [h]
    rfl
  refine ⟨h1, ?_⟩
  intro x hx
  rw [h1] at hx
  simp only [get_zoning_districts, List.mem_map] at hx
  obtain ⟨d, _, rfl⟩ := hx
  rfl

/-- C4 witness: the theorem applied to `wstoreC4` (no persisted rows, two
intersecting districts): both fallback associations are non-primary. -/
theorem fallback_zoning_never_primary_witness :
    endpoint_zoning wstoreC4 wpropC4 = get_zoning_districts wstoreC4 wpropC4.geometry :=
  (fallback_zoning_never_primary wstoreC4 wpropC4 (by decide)).1

/-- C7: looking up a non-empty BBL with no matching stored property
returns a normal successful response whose `property` is empty and whose
`error` field carries the explicit `"Property not found"` indicator — no
`HTTPException` is raised, whatever the other parameters and the geocoder
do. -/
theorem lookup_unknown_bbl_not_found (s : Store)
    (geocode : String → Except String (ℚ × ℚ)) (address : Option String)
    (b : String) (lat lon : Option ℚ) (hb : b ≠ "")
    (hnm : ∀ p ∈ s.properties, p.bbl ≠ b) :
    lookup_property s geocode address (some b) lat lon =
      .ok { property := none, error := some "Property not found" } := by
  have hb' : (b == "") = false := by
    simp [hb]
  have hfind : find_property_by_bbl s b = none := by
    apply List.find?_eq_none.mpr
    intro p hp
    simp [hnm p hp]
  simp [lookup_property, lookup_resolve, pyTruthy, hb', hfind]

/-- C7 witness: the theorem applied to `wstoreC7` and the unmatched BBL
`"9999999999"`. -/
theorem lookup_unknown_bbl_not_found_witness :
    lookup_property wstoreC7 (fun _ => Except.error "no") none (some "9999999999") none none =
      .ok { property := none, error := some "Property not found" } := by
  refine lookup_unknown_bbl_not_found wstoreC7 (fun _ => Except.error "no") none
    "9999999999" none none (by decide) ?_
  intro p hp
  simp only [wstoreC7, List.mem_singleton] at hp
  subst hp
  decide

/-- C10: a MapPLUTO record whose borough field is absent or unrecognized
(`_get_borough_code` returns `None`) but whose BBL is taken directly from
the data is not rejected: its extracted BBL is present and its borough
attribute defaults to Manhattan. -/
theorem mappluto_borough_defaults_manhattan (row : PRow) (v : String)
    (h : _get_borough_code row = none) (hB : row.BBL = some v ∨ row.bbl = some v) :
    (_extract_property_data row).borough = Borough.MANHATTAN ∧
      (_extract_bbl row).isSome = true := by
  constructor
  · unfold _extract_property_data
    rw [h]
  · unfold _extract_bbl
    rcases hB with hB | hB
    · rw [hB]
      rfl
    · cases hcase : row.BBL with
      | some w => rfl
      | none => rw [hB]; rfl

/-- C10 witness: the theorem applied to `wrowC10` (direct BBL, borough
value `"XX"` which the borough dictionary does not recognize). -/
theorem mappluto_borough_defaults_manhattan_witness :
    (_extract_property_data wrowC10).borough = Borough.MANHATTAN :=
  (mappluto_borough_defaults_manhattan wrowC10 "1000120001" (by decide) (Or.inl rfl)).1

/-- A zero-length result of `get_property_zoning_districts` means the
property has no persisted `PropertyZoning` rows. -/
theorem pzFor_eq_nil_of_assoc_len (s : Store) (p : Property)
    (h0 : (get_property_zoning_districts s p).length = 0) : pzFor s p.id = [] := by
  unfold get_property_zoning_districts at h0
  rw [List.length_map] at h0
  exact List.length_eq_zero.mp h0

/-- When none of the districts to process already has a row for the
property, the creation loop appends exactly `mkRows`. -/
theorem cpzrGo_eq_append (pid : Nat) (ds : List Nat) :
    ∀ (rows : List PropertyZoning) (i : Nat), ds.Nodup →
      (∀ d ∈ ds, ∀ r ∈ rows, ¬(r.property_id = pid ∧ r.zoning_district_id = d)) →
      cpzrGo pid rows i ds = rows ++ mkRows pid i ds := by
  induction ds with
  | nil =>
      intro rows i _ _
      simp [cpzrGo, mkRows]
  | cons d ds ih =>
      intro rows i hnd hav
      have hd_notin : d ∉ ds := (List.nodup_cons.mp hnd).1
      have hnd' : ds.Nodup := (List.nodup_cons.mp hnd).2
      have hany :
          (rows.any fun r => r.property_id == pid && r.zoning_district_id == d) = false := by
        rw [List.any_eq_false]
        intro r hr
        have h := hav d (List.mem_cons_self d ds) r hr
        simp only [Bool.and_eq_true, beq_iff_eq, not_and]
        intro h1 h2
        exact h ⟨h1, h2⟩
      have hav' : ∀ d' ∈ ds, ∀ r ∈ rows ++ [(⟨pid, d, i == 0⟩ : PropertyZoning)],
          ¬(r.property_id = pid ∧ r.zoning_district_id = d') := by
        intro d' hd' r hr
        rcases List.mem_append.mp hr with hr | hr
        · exact hav d' (List.mem_cons_of_mem d hd') r hr
        · rcases List.mem_singleton.mp hr with rfl
          rintro ⟨-, h2⟩
          have h3 : d = d' := h2
          exact hd_notin (h3 ▸ hd')
      simp only [cpzrGo, hany, Bool.false_eq_true, if_false]
      exact (ih _ _ hnd' hav').trans (by simp [mkRows, List.append_assoc])

/-- The districts of the rows built by the creation loop are the processed
districts in order. -/
theorem mkRows_map_district (pid : Nat) (i : Nat) (ds : List Nat) :
    (mkRows pid i ds).map (fun r => r.zoning_district_id) = ds := by
  induction ds generalizing i with
  | nil => rfl
  | cons d ds ih => simp [mkRows, ih]

/-- All rows built by the creation loop belong to the processed
property. -/
theorem mkRows_pid (pid : Nat) (i : Nat) (ds : List Nat) :
    ∀ r ∈ mkRows pid i ds, r.property_id = pid := by
  induction ds generalizing i with
  | nil => intro r hr; cases hr
  | cons d ds ih =>
      intro r hr
      rcases List.mem_cons.mp hr with rfl | hr
      · rfl
      · exact ih (i + 1) r hr

/-- Filtering the built rows by the property id keeps them all. -/
theorem mkRows_filter_self (pid : Nat) (i : Nat) (ds : List Nat) :
    (mkRows pid i ds).filter (fun r => r.property_id == pid) = mkRows pid i ds := by
  rw [List.filter_eq_self]
  intro r hr
  simp [mkRows_pid pid i ds r hr]

/-- Rows built starting at a positive index are never primary. -/
theorem mkRows_primary_false (pid : Nat) (i : Nat) (ds : List Nat) (hi : i ≠ 0) :
    ∀ r ∈ mkRows pid i ds, r.is_primary = false := by
  induction ds generalizing i with
  | nil => intro r hr; cases hr
  | cons d ds ih =>
      intro r hr
      rcases List.mem_cons.mp hr with rfl | hr
      · simp [hi]
      · exact ih (i + 1) (Nat.succ_ne_zero i) r hr

/-- Structural characterization of the Relationship Builder step on a
property with no pre-existing rows: its persisted rows afterwards are
exactly `mkRows` over the intersecting districts. -/
theorem builder_pzFor_eq (s : Store) (p : Property)
    (h0 : pzFor s p.id = [])
    (hnd : (intersectingIds s p).Nodup) :
    pzFor (builder_process_property s p).1 p.id = mkRows p.id 0 (intersectingIds s p) := by
  have hlen : ¬0 < (get_property_zoning_districts s p).length := by
    show ¬0 < ((pzFor s p.id).map
      (fun r => (lookupDistrict s r.zoning_district_id, r.is_primary))).length
    rw [h0]
    simp
  have havnil : ∀ d ∈ intersectingIds s p, ∀ r ∈ s.property_zoning,
      ¬(r.property_id = p.id ∧ r.zoning_district_id = d) := by
    intro d _ r hr
    rintro ⟨h1, -⟩
    have := List.filter_eq_nil_iff.mp h0 r hr
    simp [h1] at this
  unfold builder_process_property
  rw [if_neg hlen]
  unfold create_property_zoning_relationships
  by_cases hids : intersectingIds s p = []
  · rw [show ((s.zoning_districts.filter
        (fun d => s.ST_Intersects d.geometry p.geometry)).map (fun d => d.id)) =
        intersectingIds s p from rfl, hids]
    simpa [mkRows] using h0
  · rw [show ((s.zoning_districts.filter
        (fun d => s.ST_Intersects d.geometry p.geometry)).map (fun d => d.id)) =
        intersectingIds s p from rfl]
    rw [if_neg (by simpa [List.isEmpty_iff] using hids)]
    show (cpzrGo p.id s.property_zoning 0 (intersectingIds s p)).filter
        (fun r => r.property_id == p.id) = _
    rw [cpzrGo_eq_append p.id (intersectingIds s p) s.property_zoning 0 hnd havnil]
    rw [List.filter_append]
    rw [show s.property_zoning.filter (fun r => r.property_id == p.id) = pzFor s p.id from rfl]
    rw [h0, mkRows_filter_self]
    rfl

/-- C2: for a property actually processed by the Relationship Builder
(no pre-existing rows, distinct intersecting districts), the persisted
rows afterwards are one per intersecting district in store order, at most
one row is flagged primary, the flagged row is the one for the first
district returned by the intersection query, and every other district's
row has `is_primary = false`. -/
theorem builder_single_primary_first (s : Store) (p : Property)
    (h0 : (get_property_zoning_districts s p).length = 0)
    (hnd : (intersectingIds s p).Nodup) :
    (pzFor (builder_process_property s p).1 p.id).map (fun r => r.zoning_district_id) =
        intersectingIds s p ∧
      ((pzFor (builder_process_property s p).1 p.id).filter
          (fun r => r.is_primary)).length ≤ 1 ∧
      (∀ r ∈ pzFor (builder_process_property s p).1 p.id, r.is_primary = true →
          (intersectingIds s p).head? = some r.zoning_district_id) ∧
      (∀ r ∈ pzFor (builder_process_property s p).1 p.id, r.is_primary = false →
          (intersectingIds s p).head? ≠ some r.zoning_district_id) := by
  have hpz := builder_pzFor_eq s p (pzFor_eq_nil_of_assoc_len s p h0) hnd
  rw [hpz]
  refine ⟨mkRows_map_district p.id 0 _, ?_, ?_, ?_⟩
  · cases hids : intersectingIds s p with
    | nil => simp [mkRows]
    | cons d ds =>
        have hrest : (mkRows p.id 1 ds).filter (fun r => r.is_primary) = [] := by
          rw [List.filter_eq_nil_iff]
          intro r hr
          simp [mkRows_primary_false p.id 1 ds one_ne_zero r hr]
        simp [mkRows, hrest]
  · intro r hr hprim
    cases hids : intersectingIds s p with
    | nil => rw [hids] at hr; cases hr
    | cons d ds =>
        rw [hids] at hr
        rcases List.mem_cons.mp hr with rfl | hr
        · rfl
        · have := mkRows_primary_false p.id 1 ds one_ne_zero r hr
          rw [hprim] at this
          cases this
  · intro r hr hprim
    cases hids : intersectingIds s p with
    | nil => rw [hids] at hr; cases hr
    | cons d ds =>
        rw [hids] at hr
        rw [hids] at hnd
        rcases List.mem_cons.mp hr with rfl | hr
        · simp at hprim
        · have hmem : r.zoning_district_id ∈ ds := by
            have := List.mem_map_of_mem (fun r => r.zoning_district_id) hr
            rwa [mkRows_map_district] at this
          intro hcontra
          have hd : d = r.zoning_district_id := by
            simpa using hcontra
          exact (List.nodup_cons.mp hnd).1 (hd ▸ hmem)

/-- C2 witness: the theorem applied to `wstoreC2` (two intersecting
districts, no pre-existing rows): the created rows cover districts 1 and
2 in order and at most one is primary. -/
theorem builder_single_primary_first_witness :
    (pzFor (builder_process_property wstoreC2 wpropC2).1 wpropC2.id).map
        (fun r => r.zoning_district_id) = [1, 2] ∧
      ((pzFor (builder_process_property wstoreC2 wpropC2).1 wpropC2.id).filter
          (fun r => r.is_primary)).length ≤ 1 := by
  have h := builder_single_primary_first wstoreC2 wpropC2 (by decide) (by decide)
  exact ⟨h.1, h.2.1⟩

/-- Keys already in the database survive the importer record loop. -/
theorem importGo_mem_db {ρ : Type} (extractKey : ρ → Option String) (ue : Bool)
    (rs : List ρ) : ∀ (db : List String) (st : ImportStats) (k : String),
    k ∈ db → k ∈ (importGo extractKey ue db st rs).1 := by
  induction rs with
  | nil =>
      intro db st k hk
      simpa [importGo] using hk
  | cons r rs ih =>
      intro db st k hk
      unfold importGo
      cases he : extractKey r with
      | none => exact ih _ _ _ hk
      | some k' =>
          by_cases h1 : (k' == "") = true
          · simp only [h1, if_true]
            exact ih _ _ _ hk
          · simp only [h1, if_false]
            by_cases h2 : db.contains k'
            · simp only [h2, if_true]
              cases ue
              · simp only [Bool.false_eq_true, if_false]
                exact ih _ _ _ hk
              · simp only [if_true]
                exact ih _ _ _ hk
            · simp only [h2, Bool.false_eq_true, if_false]
              exact ih _ _ _ (List.mem_append_left _ hk)

/-- After one importer run, every truthy natural key extracted from the
processed records is in the database. -/
theorem importGo_key_present {ρ : Type} (extractKey : ρ → Option String) (ue : Bool)
    (rs : List ρ) : ∀ (db : List String) (st : ImportStats) (r : ρ) (k : String),
    r ∈ rs → extractKey r = some k → k ≠ "" →
    k ∈ (importGo extractKey ue db st rs).1 := by
  induction rs with
  | nil =>
      intro db st r k hr _ _
      cases hr
  | cons r' rs ih =>
      intro db st r k hr he hne
      rcases List.mem_cons.mp hr with rfl | hr
      · unfold importGo
        rw [he]
        have h1 : (k == "") = false := by simp [hne]
        simp only [h1, Bool.false_eq_true, if_false]
        by_cases h2 : db.contains k
        · simp only [h2, if_true]
          have hk : k ∈ db := by simpa using h2
          cases ue
          · simp only [Bool.false_eq_true, if_false]
            exact importGo_mem_db extractKey false rs _ _ _ hk
          · simp only [if_true]
            exact importGo_mem_db extractKey true rs _ _ _ hk
        · simp only [h2, Bool.false_eq_true, if_false]
          exact importGo_mem_db extractKey ue rs _ _ _
            (List.mem_append_right _ (List.mem_singleton.mpr rfl))
      · unfold importGo
        cases he' : extractKey r' with
        | none => exact ih _ _ _ _ hr he hne
        | some k' =>
            by_cases h1 : (k' == "") = true
            · simp only [h1, if_true]
              exact ih _ _ _ _ hr he hne
            · simp only [h1, if_false]
              by_cases h2 : db.contains k'
              · simp only [h2, if_true]
                cases ue
                · simp only [Bool.false_eq_true, if_false]
                  exact ih _ _ _ _ hr he hne
                · simp only [if_true]
                  exact ih _ _ _ _ hr he hne
              · simp only [h2, Bool.false_eq_true, if_false]
                exact ih _ _ _ _ hr he hne

/-- When every truthy key of the records is already present and
`update_existing` is unset, the record loop leaves the database unchanged
and counts every record as skipped. -/
theorem importGo_all_skipped {ρ : Type} (extractKey : ρ → Option String)
    (rs : List ρ) : ∀ (db : List String) (st : ImportStats),
    (∀ r ∈ rs, ∀ k, extractKey r = some k → k ≠ "" → k ∈ db) →
    importGo extractKey false db st rs =
      (db, { st with skipped := st.skipped + rs.length }) := by
  induction rs with
  | nil =>
      intro db st _
      simp [importGo]
  | cons r rs ih =>
      intro db st hall
      have hall' : ∀ r' ∈ rs, ∀ k, extractKey r' = some k → k ≠ "" → k ∈ db :=
        fun r' hr' => hall r' (List.mem_cons_of_mem r hr')
      have harith : st.skipped + 1 + rs.length = st.skipped + (r :: rs).length := by
        simp only [List.length_cons]
        omega
      unfold importGo
      cases he : extractKey r with
      | none =>
          rw [ih _ _ hall']
          show (db, ({ st with skipped := st.skipped + 1 + rs.length } : ImportStats)) = _
          rw [harith]
      | some k =>
          by_cases h1 : (k == "") = true
          · simp only [h1, if_true]
            rw [ih _ _ hall']
            show (db, ({ st with skipped := st.skipped + 1 + rs.length } : ImportStats)) = _
            rw [harith]
          · have hne : k ≠ "" := by simpa using h1
            have hk : db.contains k := by
              simpa using hall r (List.mem_cons_self r rs) k he hne
            simp only [h1, hk, Bool.false_eq_true, if_false, if_true]
            rw [ih _ _ hall']
            show (db, ({ st with skipped := st.skipped + 1 + rs.length } : ImportStats)) = _
            rw [harith]

/-- C6: a second importer run over the same records with `update_existing`
unset inserts nothing: the database is unchanged and every record is
counted as skipped, so the entity count is unchanged across the second
run. -/
theorem importer_rerun_no_new_entities {ρ : Type} (extractKey : ρ → Option String)
    (db : List String) (records : List ρ) :
    import_file extractKey (import_file extractKey db records false false).1 records
        false false =
      ((import_file extractKey db records false false).1,
        ⟨records.length, 0, 0, records.length, 0⟩) := by
  unfold import_file
  simp only [Bool.false_eq_true, if_false]
  rw [importGo_all_skipped]
  · simp
  · intro r hr k hk hne
    exact importGo_key_present extractKey false records _ _ r k hr hk hne

/-- `zfill` pads to the width but never truncates: the result length is
the maximum of the input length and the width. -/
theorem zfillL_length (cs : List Char) (w : Nat) : (zfillL cs w).length = max cs.length w := by
  unfold zfillL
  split
  · next h => omega
  · next h =>
      split <;> simp [List.length_append, List.length_replicate] <;> omega

/-- String-level version of `zfillL_length`. -/
theorem zfill_length (s : String) (w : Nat) : (zfill s w).length = max s.length w :=
  zfillL_length s.data w

/-- C8 (amended): every natural key extracted by `_extract_bbl` has at
least 10 characters, and exactly 10 when the direct BBL field value has at
most 10 characters; `zfill(10)` pads but never truncates, so longer field
values pass through at their original length. -/
theorem extract_bbl_at_least_ten (row : PRow) (s : String)
    (h : _extract_bbl row = some s) :
    10 ≤ s.length ∧ ∀ t, row.BBL = some t → t.length ≤ 10 → s.length = 10 := by
  unfold _extract_bbl at h
  cases hB : row.BBL with
  | some v =>
      rw [hB] at h
      injection h with h'
      constructor
      · rw [← h', zfill_length]
        exact Nat.le_max_right _ _
      · intro t ht hle
        injection ht with ht'
        subst ht'
        rw [← h', zfill_length]
        omega
  | none =>
      rw [hB] at h
      have hvac : ∀ t : String, (none : Option String) = some t →
          t.length ≤ 10 → s.length = 10 := by
        intro t ht
        cases ht
      refine ⟨?_, hvac⟩
      cases hb : row.bbl with
      | some v =>
          rw [hb] at h
          injection h with h'
          rw [← h', zfill_length]
          exact Nat.le_max_right _ _
      | none =>
          rw [hb] at h
          rcases hg : _get_borough_code row with _ | bc <;> rw [hg] at h <;>
            rcases hblk : row.Block.or row.block with _ | blk <;> rw [hblk] at h <;>
              rcases hlt : row.Lot.or row.lot with _ | lt <;> rw [hlt] at h
          case none.none.none => cases h
          case none.none.some => cases h
          case none.some.none => cases h
          case none.some.some => cases h
          case some.none.none => cases h
          case some.none.some => cases h
          case some.some.none => cases h
          case some.some.some =>
              injection h with h'
              rw [← h', zfill_length]
              exact Nat.le_max_right _ _

/-- C8 counterexample: a record whose BBL field holds eleven characters
yields an eleven-character key — the extracted natural key is not always
exactly 10 characters. -/
theorem extract_bbl_not_ten_cx :
    _extract_bbl cxRowC8 = some "12345678901" ∧ ("12345678901" : String).length ≠ 10 := by
  constructor <;> decide

/-- C8 witness: the theorem applied to `wrowC8` (three-character bbl
field), whose key is padded to exactly 10 characters. -/
theorem extract_bbl_at_least_ten_witness : 10 ≤ ("0000000123" : String).length := by
  have h : _extract_bbl wrowC8 = some "0000000123" := by decide
  exact (extract_bbl_at_least_ten wrowC8 "0000000123" h).1

/-- Every word produced by Python `str.split()` is nonempty and free of
whitespace. -/
theorem pySplitGo_words (cs : List Char) : ∀ cur : List Char,
    (∀ c ∈ cur, pyIsSpace c = false) →
    ∀ w ∈ pySplitGo cur cs, w ≠ [] ∧ ∀ c ∈ w, pyIsSpace c = false := by
  induction cs with
  | nil =>
      intro cur hcur w hw
      unfold pySplitGo at hw
      by_cases hc : cur.isEmpty
      · rw [if_pos hc] at hw
        cases hw
      · rw [if_neg hc] at hw
        rcases List.mem_singleton.mp hw with rfl
        constructor
        · simpa [List.isEmpty_iff] using hc
        · intro c hc'
          exact hcur c (List.mem_reverse.mp hc')
  | cons c cs ih =>
      intro cur hcur w hw
      unfold pySplitGo at hw
      by_cases hsp : pyIsSpace c
      · rw [if_pos hsp] at hw
        by_cases hc : cur.isEmpty
        · rw [if_pos hc] at hw
          exact ih [] (by intro x hx; cases hx) w hw
        · rw [if_neg hc] at hw
          rcases List.mem_cons.mp hw with rfl | hw
          · constructor
            · simpa [List.isEmpty_iff] using hc
            · intro x hx
              exact hcur x (List.mem_reverse.mp hx)
          · exact ih [] (by intro x hx; cases hx) w hw
      · rw [if_neg hsp] at hw
        refine ih (c :: cur) ?_ w hw
        intro x hx
        rcases List.mem_cons.mp hx with rfl | hx
        · simpa using hsp
        · exact hcur x hx

/-- Appending a whitespace-free word in front preserves the
no-double-whitespace property. -/
theorem ndw_word_append (w : List Char) : ∀ l : List Char,
    (∀ c ∈ w, pyIsSpace c = false) → noDoubleWhite l = true →
    noDoubleWhite (w ++ l) = true := by
  induction w with
  | nil => intro l _ hl; simpa using hl
  | cons a w ih =>
      intro l hw hl
      have ha : pyIsSpace a = false := hw a (List.mem_cons_self a w)
      have ih' : noDoubleWhite (w ++ l) = true :=
        ih l (fun c hc => hw c (List.mem_cons_of_mem a hc)) hl
      cases hwl : w ++ l with
      | nil =>
          rw [List.cons_append, hwl]
          rfl
      | cons b t =>
          rw [List.cons_append, hwl]
          rw [show noDoubleWhite (a :: b :: t) =
            (!(pyIsSpace a && pyIsSpace b) && noDoubleWhite (b :: t)) from rfl]
          rw [ha]
          rw [hwl] at ih'
          simp [ih']

/-- Concatenation preserves no-double-whitespace when the right part
starts with a non-whitespace character. -/
theorem ndw_append_nonspace_head (A : List Char) : ∀ B : List Char,
    noDoubleWhite A = true → noDoubleWhite B = true →
    (∀ b, B.head? = some b → pyIsSpace b = false) →
    noDoubleWhite (A ++ B) = true := by
  induction A with
  | nil => intro B _ hB _; simpa using hB
  | cons a A ih =>
      intro B hA hB hhd
      cases A with
      | nil =>
          cases B with
          | nil => simp [noDoubleWhite]
          | cons b t =>
              have hb : pyIsSpace b = false := hhd b rfl
              show noDoubleWhite (a :: b :: t) = true
              rw [show noDoubleWhite (a :: b :: t) =
                (!(pyIsSpace a && pyIsSpace b) && noDoubleWhite (b :: t)) from rfl]
              rw [hb]
              simpa using hB
      | cons a2 A' =>
          rw [show noDoubleWhite (a :: a2 :: A') =
            (!(pyIsSpace a && pyIsSpace a2) && noDoubleWhite (a2 :: A')) from rfl] at hA
          simp only [Bool.and_eq_true] at hA
          have hA1 : (!(pyIsSpace a && pyIsSpace a2)) = true := hA.1
          have hA2 : noDoubleWhite (a2 :: A') = true := hA.2
          have ih' := ih B hA2 hB hhd
          show noDoubleWhite (a :: a2 :: (A' ++ B)) = true
          rw [show noDoubleWhite (a :: a2 :: (A' ++ B)) =
            (!(pyIsSpace a && pyIsSpace a2) && noDoubleWhite (a2 :: (A' ++ B))) from rfl]
          rw [hA1]
          simpa using ih'

/-- The single-space join of a list of words starting with a given
character starts with that character. -/
theorem joinSp_cons_head (c : Char) (w : List Char) (ws : List (List Char)) :
    ∃ t, joinSp ((c :: w) :: ws) = c :: t := by
  cases ws with
  | nil => exact ⟨w, rfl⟩
  | cons w' ws' => exact ⟨w ++ ' ' :: joinSp (w' :: ws'), rfl⟩

/-- Joining nonempty whitespace-free words with single spaces yields a
string with no two adjacent whitespace characters. -/
theorem joinSp_ndw (ws : List (List Char))
    (h : ∀ w ∈ ws, w ≠ [] ∧ ∀ c ∈ w, pyIsSpace c = false) :
    noDoubleWhite (joinSp ws) = true := by
  induction ws with
  | nil => rfl
  | cons w ws ih =>
      have hw := h w (List.mem_cons_self w ws)
      have h' : ∀ w' ∈ ws, w' ≠ [] ∧ ∀ c ∈ w', pyIsSpace c = false :=
        fun w' hw' => h w' (List.mem_cons_of_mem w hw')
      cases ws with
      | nil =>
          show noDoubleWhite w = true
          have := ndw_word_append w [] hw.2 rfl
          simpa using this
      | cons w' ws' =>
          show noDoubleWhite (w ++ ' ' :: joinSp (w' :: ws')) = true
          refine ndw_word_append w _ hw.2 ?_
          have hw' := h' w' (List.mem_cons_self w' ws')
          cases hcw : w' with
          | nil => exact absurd hcw hw'.1
          | cons c w'' =>
              obtain ⟨t, hjoin⟩ := joinSp_cons_head c w'' ws'
              have hj : noDoubleWhite (joinSp ((c :: w'') :: ws')) = true := by
                rw [← hcw]
                exact ih h'
              rw [hjoin] at hj
              rw [hjoin]
              show (!(pyIsSpace ' ' && pyIsSpace c) && noDoubleWhite (c :: t)) = true
              have hc : pyIsSpace c = false := by
                refine hw'.2 c ?_
                rw [hcw]
                exact List.mem_cons_self c w''
              rw [hc]
              simpa using hj

/-- The whitespace-collapsing step never produces adjacent whitespace. -/
theorem collapseL_ndw (cs : List Char) : noDoubleWhite (collapseL cs) = true :=
  joinSp_ndw (pySplit cs)
    (pySplitGo_words cs [] (by intro c hc; cases hc))

/-- C9: address normalization collapses runs of whitespace (the result
never contains two adjacent whitespace characters) and appends
`", New York, NY"` exactly when the collapsed address does not mention
`"new york"` or `"ny"` case-insensitively; otherwise only the collapse is
applied. -/
theorem normalize_address_correct (a : String) :
    noDoubleWhiteS (normalize_address a) = true ∧
      (mentionsNY (collapseS a) = true → normalize_address a = collapseS a) ∧
      (mentionsNY (collapseS a) = false →
        normalize_address a = collapseS a ++ ", New York, NY") := by
  refine ⟨?_, ?_, ?_⟩
  · show noDoubleWhite (normalize_addressL a.data) = true
    unfold normalize_addressL
    cases hc : mentionsNYL (collapseL a.data) with
    | false =>
        simp only [hc, Bool.not_false, if_true]
        refine ndw_append_nonspace_head _ _ (collapseL_ndw a.data) (by decide) ?_
        intro b hb
        injection hb with hb'
        rw [← hb']
        decide
    | true =>
        simp only [hc, Bool.not_true, Bool.false_eq_true, if_false]
        exact collapseL_ndw a.data
  · intro hm
    have hc : mentionsNYL (collapseL a.data) = true := hm
    unfold normalize_address normalize_addressL
    simp only [hc, Bool.not_true, Bool.false_eq_true, if_false]
    rfl
  · intro hm
    have hc : mentionsNYL (collapseL a.data) = false := hm
    unfold normalize_address normalize_addressL
    simp only [hc, Bool.not_false, if_true]
    rfl

/-- C9 witness: the theorem applied to `"350  Fifth   Avenue"`: whitespace
is collapsed and the suffix appended, since the address does not mention
New York. -/
theorem normalize_address_correct_witness :
    noDoubleWhiteS (normalize_address "350  Fifth   Avenue") = true ∧
      normalize_address "350  Fifth   Avenue" = "350 Fifth Avenue, New York, NY" := by
  refine ⟨(normalize_address_correct "350  Fifth   Avenue").1, ?_⟩
  have h := (normalize_address_correct "350  Fifth   Avenue").2.2 (by decide)
  rw [h]
  decide

end NycBack
